import Mathlib

/-!
Verification of the generation-orchestration core of `influencer-maker`
(`src/services/geminiService.ts`).

Strings are modelled as `List Char` (`Str`); JavaScript numbers appearing in
camera settings are modelled as `ℚ` (all comparisons in the source are with
exact decimal literals); the network call of the single-unit generator is
modelled by an explicit `ServiceOutcome` argument (either a parsed response
or a thrown raw error, itself modelled by its message string).
-/

abbrev Str := List Char

def str (s : String) : Str := s.data

/-- JavaScript `msg.includes(pat)`: `pat` occurs as a contiguous substring. -/
def jsIncludes (msg pat : Str) : Bool :=
  go msg
where
  go : Str → Bool
    | [] => pat.isEmpty
    | c :: rest => pat.isPrefixOf (c :: rest) || go rest

/-- JavaScript truthiness of a `string | null | undefined` value:
`none` and the empty string are falsy. -/
def jsTruthy : Option Str → Bool
  | none => false
  | some s => !s.isEmpty

/-- The two model tiers (`ModelType` in `types.ts`): `'standard' | 'pro'`. -/
inductive ModelType where
  | standard
  | pro
deriving DecidableEq

/-- Model of `getAiClient` (geminiService.ts lines 6-12):
`localStorage.getItem('gemini_api_key') || process.env.API_KEY`, then a
throw when the result is falsy. The client object is identified with the
key it is built from; the two ambient sources are explicit arguments, so a
call always sees their current values (nothing is cached). An `.error` is
the thrown missing-credential message. -/
def getAiClient (store env : Option Str) : Except Str Str :=
  let apiKey := if jsTruthy store then store else env
  if jsTruthy apiKey then .ok (apiKey.getD [])
  else .error (str "API Key not found. Please click the Key icon to register your API Key.")

def missingKeyMsg : Str :=
  str "API Key not found. Please click the Key icon to register your API Key."

/-- The four data-URI headers recognized by the anchored regex in
`cleanBase64`: `/^data:image\/(png|jpeg|jpg|webp);base64,/`. -/
def hdrPng : Str := str "data:image/png;base64,"

def hdrJpeg : Str := str "data:image/jpeg;base64,"

def hdrJpg : Str := str "data:image/jpg;base64,"

def hdrWebp : Str := str "data:image/webp;base64,"

def base64Headers : List Str := [hdrPng, hdrJpeg, hdrJpg, hdrWebp]

/-- Model of `cleanBase64` (geminiService.ts lines 14-16): replace the first (anchored)
match of the alternation `png|jpeg|jpg|webp` data-URI header with the empty
string. The regex is anchored at the start, so this is: strip whichever of
the four headers the input starts with, otherwise return it unchanged. -/
def cleanBase64 (base64Data : Str) : Str :=
  if hdrPng.isPrefixOf base64Data then base64Data.drop hdrPng.length
  else if hdrJpeg.isPrefixOf base64Data then base64Data.drop hdrJpeg.length
  else if hdrJpg.isPrefixOf base64Data then base64Data.drop hdrJpg.length
  else if hdrWebp.isPrefixOf base64Data then base64Data.drop hdrWebp.length
  else base64Data

/-- The normalised errors thrown by `handleGeminiError`; `original` is the
re-thrown raw error (identified by its message). -/
inductive GeminiThrow where
  | billingDenied
  | accessDenied
  | quotaExceeded
  | original (msg : Str)
deriving DecidableEq

/-- The message carried by each thrown error, exactly as in the source
(lines 29, 31, 35; `original` re-throws the raw error unchanged). -/
def throwMessage : GeminiThrow → Str
  | .billingDenied => str "Access Denied (403). \x27Banana Pro\x27 requires a Google Cloud Project with Billing enabled. Please switch to \x27Flash Lite\x27 or use a paid API key."
  | .accessDenied => str "Access Denied (403). Please check if your API Key is valid and has permissions for the Generative AI API."
  | .quotaExceeded => str "Quota Exceeded (429). You are generating too fast. Please wait a moment."
  | .original m => m

/-- Model of `handleGeminiError` (geminiService.ts lines 23-39). The raw error is
modelled by its message string (`error.message || error.toString()`); the
function always throws, so its result type is the thrown error. -/
def handleGeminiError (msg : Str) (modelType : Option ModelType) : GeminiThrow :=
  if jsIncludes msg (str "403") || jsIncludes msg (str "PERMISSION_DENIED") then
    if modelType = some ModelType.pro then .billingDenied else .accessDenied
  else if jsIncludes msg (str "429") then .quotaExceeded
  else .original msg

/-- One part of a response candidate. `inlineData` merges the JS
`part.inlineData?.data` chain: `some d` means inline data is present with
payload `d` (possibly empty, which JS treats as falsy); `none` means the
part has no usable inline-data object. `text` is `part.text`. -/
structure RespPart where
  inlineData : Option Str
  text : Option Str
deriving DecidableEq

/-- A response candidate; `parts` is `candidate.content.parts`. -/
structure Candidate where
  parts : List RespPart
deriving DecidableEq

/-- The service response: `candidates` may be absent (`none`). -/
structure GenResponse where
  candidates : Option (List Candidate)
deriving DecidableEq

/-- The outcome of one `ai.models.generateContent` round trip: either a
parsed response, or a thrown raw error (modelled by its message). -/
inductive ServiceOutcome where
  | ok (response : GenResponse)
  | err (msg : Str)
deriving DecidableEq

/-- JS truthiness of `part.inlineData && part.inlineData.data`. -/
def partHasImage (p : RespPart) : Bool :=
  match p.inlineData with
  | some d => !d.isEmpty
  | none => false

/-- JS truthiness of `p.text`, the predicate of `parts.find(p => p.text)`. -/
def partTextTruthy (p : RespPart) : Bool :=
  match p.text with
  | some t => !t.isEmpty
  | none => false

/-- The `for (const part of parts)` loop of `generateSingleImage`
(lines 251-255): the data of the first part whose inline data is truthy. -/
def firstInlineData : List RespPart → Option Str
  | [] => none
  | p :: ps =>
    match p.inlineData with
    | some d => if d.isEmpty then firstInlineData ps else some d
    | none => firstInlineData ps

def noImageMsg : Str := str "No image generated"

/-- Response handling of `generateSingleImage` (lines 249-257): scan the
first candidate only; wrap the first truthy inline data into a PNG data-URI;
otherwise throw `"No image generated"` (also when candidates are absent or
empty). -/
def processResponse (r : GenResponse) : Except Str Str :=
  match r.candidates with
  | some (c :: _) =>
    match firstInlineData c.parts with
    | some d => .ok (hdrPng ++ d)
    | none => .error noImageMsg
  | some [] => .error noImageMsg
  | none => .error noImageMsg

/-- Model of `generateSingleImage` (lines 215-262) as a function of the outcome of
its single network round trip: a thrown raw error is re-thrown unchanged
(the `catch` re-throws), a response is parsed by `processResponse`. -/
def generateSingleImage : ServiceOutcome → Except Str Str
  | .ok r => processResponse r
  | .err m => .error m

def modelRefusedMsg (t : Str) : Str := str "Model refused: " ++ t

/-- Response handling of `generateReferenceImage` (lines 85-97): unlike
`generateSingleImage`, after the image scan it looks for a truthy text part
and throws `Model refused: <text>`; its fallback message ends in a period. -/
def processReferenceResponse (r : GenResponse) : Except Str Str :=
  match r.candidates with
  | some (c :: _) =>
    match firstInlineData c.parts with
    | some d => .ok (hdrPng ++ d)
    | none =>
      match c.parts.find? partTextTruthy with
      | some tp => .error (modelRefusedMsg (tp.text.getD []))
      | none => .error (str "No image generated.")
  | some [] => .error (str "No image generated.")
  | none => .error (str "No image generated.")

/-- One element of the `results` array of `generateStoryBatch`
(lines 323-331): `{ url, prompt, success, error }`, with the error modelled
by its message. -/
structure UnitResult where
  url : Str
  prompt : Str
  success : Bool
  error : Option Str
deriving DecidableEq

/-- One mapped promise of `generateStoryBatch` (lines 323-331): run the
single-unit generator and capture success or failure. -/
def runUnit (prompt : Str) (o : ServiceOutcome) : UnitResult :=
  match generateSingleImage o with
  | .ok url => ⟨url, prompt, true, none⟩
  | .error m => ⟨[], prompt, false, some m⟩

/-- The fatal-failure test of lines 336-338:
`r.error && (r.error.message?.includes("403") || r.error.message?.includes("PERMISSION_DENIED"))`. -/
def isFatalMsg (m : Str) : Bool :=
  jsIncludes m (str "403") || jsIncludes m (str "PERMISSION_DENIED")

def unitIsFatal (r : UnitResult) : Bool :=
  match r.error with
  | some m => isFatalMsg m
  | none => false

/-- Model of `generateStoryBatch` (lines 315-345). The per-prompt service outcomes
are supplied as a parallel list (`outcomes`), in dispatch order. The call
either throws a classified error (`.error`) or resolves (`.ok`) to the
filtered `{url, prompt}` pairs of the successful units. -/
def generateStoryBatch (prompts : List Str) (outcomes : List ServiceOutcome)
    (modelType : ModelType) : Except GeminiThrow (List (Str × Str)) :=
  let results := (prompts.zip outcomes).map fun q => runUnit q.1 q.2
  match results.find? unitIsFatal with
  | some fatal => .error (handleGeminiError (fatal.error.getD []) (some modelType))
  | none => .ok ((results.filter fun r => r.success && !r.url.isEmpty).map fun r => (r.url, r.prompt))

/-- Camera settings (`CameraSettings` in `types.ts`, used at lines 277-290):
three numeric sliders and a lens toggle. -/
structure CameraSettings where
  rotation : ℚ
  vertical : ℚ
  zoom : ℚ
  isWideAngle : Bool
deriving DecidableEq

/-- Rendering of a number interpolated into a template literal; the exact
digit string is irrelevant to every claim, only that it is some rendering. -/
def numStr (q : ℚ) : Str := (toString q).data

/-- Rotation clause of the camera description (lines 277-279). -/
def rotationPhrase (s : CameraSettings) : Str :=
  if s.rotation < -10 then
    str "Profile view from the left (" ++ numStr (abs s.rotation) ++ str " degrees), "
  else if s.rotation > 10 then
    str "Profile view from the right (" ++ numStr s.rotation ++ str " degrees), "
  else str "Front facing view, "

/-- Vertical clause of the camera description (lines 281-283). -/
def verticalPhrase (s : CameraSettings) : Str :=
  if s.vertical < -(3/10) then str "Low angle shot (worm\x27s eye view), "
  else if s.vertical > 3/10 then str "High angle shot (bird\x27s eye view), "
  else str "Eye-level shot, "

/-- Zoom clause of the camera description (lines 285-287). -/
def zoomPhrase (s : CameraSettings) : Str :=
  if s.zoom > 7 then str "Extreme close-up on face, detailed features, "
  else if s.zoom > 3 then str "Medium close-up (head and shoulders), "
  else str "Full body shot, "

/-- Lens clause of the camera description (lines 289-290). -/
def lensPhrase (s : CameraSettings) : Str :=
  if s.isWideAngle then str "Shot with a wide-angle lens (16mm), slightly distorted perspective, "
  else str "Shot with a portrait lens (85mm), "

/-- The accumulated `cameraDescription` of `generateStudioImage`
(lines 276-290): the four clauses appended in source order. -/
def cameraDescription (s : CameraSettings) : Str :=
  rotationPhrase s ++ verticalPhrase s ++ zoomPhrase s ++ lensPhrase s

/-- Whether one single-unit generation succeeded (used to state the
successful-subset property of the batch orchestrator). -/
def genOk (o : ServiceOutcome) : Bool :=
  match generateSingleImage o with
  | .ok _ => true
  | .error _ => false

/-- The artifact returned by a successful single-unit generation (empty for
a failed one). -/
def genUrl (o : ServiceOutcome) : Str :=
  match generateSingleImage o with
  | .ok u => u
  | .error _ => []

/-- A response part carrying inline image data `d`. -/
def imgPart (d : Str) : RespPart := ⟨some d, none⟩

/-- A response part carrying only text `t`. -/
def textPart (t : Str) : RespPart := ⟨none, some t⟩

/-- A well-formed response whose single candidate carries image data `d`. -/
def imgResp (d : Str) : GenResponse := ⟨some [⟨[imgPart d]⟩]⟩

/-- A response whose single candidate has only a text (refusal) part. -/
def refusalResp : GenResponse := ⟨some [⟨[textPart (str "I cannot do that")]⟩]⟩

/-- A response with two candidates where only the second carries image
data. -/
def twoCandidateResp : GenResponse :=
  ⟨some [⟨[textPart (str "refused")]⟩, ⟨[imgPart (str "IMG2")]⟩]⟩

/-! ## Helper lemmas -/

theorem isPrefixOf_append_self (p s : Str) : p.isPrefixOf (p ++ s) = true := by
  induction p with
  | nil => simp
  | cons a as ih => simp [List.isPrefixOf_cons₂, ih]

theorem isPrefixOf_append_eq_false (p q s : Str)
    (h : (p.take q.length).isPrefixOf q = false) : p.isPrefixOf (q ++ s) = false := by
  induction p generalizing q with
  | nil => simp at h
  | cons a as ih =>
    cases q with
    | nil => simp at h
    | cons b bs =>
      rw [List.length_cons, List.take_succ_cons, List.isPrefixOf_cons₂] at h
      rw [List.cons_append, List.isPrefixOf_cons₂]
      cases hab : (a == b) with
      | false => simp [hab]
      | true =>
        simp only [hab, Bool.true_and] at h ⊢
        exact ih bs h

/-! ## Claims -/

/-- Claim C8: normalization of a reference-image payload strips any of the
recognized embedded data-URI format-prefix headers before transmission; in
particular `data:image/png;base64,AAAA` normalizes to exactly `AAAA`. -/
theorem c8_clean_base64_strips_header :
    (∀ h s, h ∈ base64Headers → cleanBase64 (h ++ s) = s) ∧
    cleanBase64 (str "data:image/png;base64,AAAA") = str "AAAA" := by
  constructor
  · intro h s hmem
    simp only [base64Headers, List.mem_cons, List.not_mem_nil, or_false] at hmem
    rcases hmem with rfl | rfl | rfl | rfl
    · simp [cleanBase64, isPrefixOf_append_self, List.drop_left]
    · have h1 : hdrPng.isPrefixOf (hdrJpeg ++ s) = false :=
        isPrefixOf_append_eq_false _ _ _ (by decide)
      simp [cleanBase64, h1, isPrefixOf_append_self, List.drop_left]
    · have h1 : hdrPng.isPrefixOf (hdrJpg ++ s) = false :=
        isPrefixOf_append_eq_false _ _ _ (by decide)
      have h2 : hdrJpeg.isPrefixOf (hdrJpg ++ s) = false :=
        isPrefixOf_append_eq_false _ _ _ (by decide)
      simp [cleanBase64, h1, h2, isPrefixOf_append_self, List.drop_left]
    · have h1 : hdrPng.isPrefixOf (hdrWebp ++ s) = false :=
        isPrefixOf_append_eq_false _ _ _ (by decide)
      have h2 : hdrJpeg.isPrefixOf (hdrWebp ++ s) = false :=
        isPrefixOf_append_eq_false _ _ _ (by decide)
      have h3 : hdrJpg.isPrefixOf (hdrWebp ++ s) = false :=
        isPrefixOf_append_eq_false _ _ _ (by decide)
      simp [cleanBase64, h1, h2, h3, isPrefixOf_append_self, List.drop_left]
  · decide

/-- Witness for C8 at a concrete header and payload. -/
theorem c8_witness : cleanBase64 (hdrJpeg ++ str "BBBB") = str "BBBB" :=
  c8_clean_base64_strips_header.1 hdrJpeg (str "BBBB") (by decide)

/-- Claim C9: a batch with zero prompts resolves to the empty list, for every
possible behaviour of the generation service (hence without issuing any
request) and without throwing. -/
theorem c9_empty_batch (outcomes : List ServiceOutcome) (mt : ModelType) :
    generateStoryBatch [] outcomes mt = .ok [] := rfl

/-- Claim C6: `getAiClient` resolves the credential with fixed precedence —
the user-registered store value when non-empty, otherwise the environment
default — and throws the missing-credential error exactly when neither
source is a non-empty string. Both sources are read at call time (the
function is a pure function of their current values, so nothing is cached
between calls). -/
theorem c6_client_resolution (store env : Option Str) :
    (∀ s, store = some s → s ≠ [] → getAiClient store env = .ok s) ∧
    (jsTruthy store = false → ∀ e, env = some e → e ≠ [] → getAiClient store env = .ok e) ∧
    (getAiClient store env = .error missingKeyMsg ↔
      jsTruthy store = false ∧ jsTruthy env = false) := by
  refine ⟨?_, ?_, ?_⟩
  · intro s hs hne
    subst hs
    simp [getAiClient, jsTruthy, hne]
  · intro hst e he hne
    subst he
    have hst2 : store = none ∨ store = some [] := by
      cases store with
      | none => exact Or.inl rfl
      | some s =>
        cases s with
        | nil => exact Or.inr rfl
        | cons c t => simp [jsTruthy] at hst
    rcases hst2 with rfl | rfl <;> simp [getAiClient, jsTruthy, hne]
  · cases hst : jsTruthy store with
    | true => simp [getAiClient, hst]
    | false =>
      cases he : jsTruthy env with
      | true => simp [getAiClient, hst, he]
      | false => simp [getAiClient, hst, he, missingKeyMsg]

/-- Witness for C6: store wins when non-empty; empty store falls back to the
environment; both empty-or-absent throws the missing-credential error. -/
theorem c6_witness :
    getAiClient (some (str "userKey")) (some (str "envKey")) = .ok (str "userKey") ∧
    getAiClient (some []) (some (str "envKey")) = .ok (str "envKey") ∧
    getAiClient (some []) none = .error missingKeyMsg :=
  ⟨(c6_client_resolution _ _).1 (str "userKey") rfl (by decide),
   (c6_client_resolution _ _).2.1 (by decide) (str "envKey") rfl (by decide),
   (c6_client_resolution _ _).2.2.mpr (by decide)⟩

/-- Claim C7: the error classifier never returns normally (structurally: its
result is always a thrown error): a 403/permission-denied indicator yields a
classified access error (billing-flavoured for the pro tier), a 429
indicator (without a 403 one) yields the rate-limited error, and an
unrecognized error is re-thrown as the original, with its message unchanged. -/
theorem c7_classifier_policy (msg : Str) (mt : Option ModelType) :
    ((jsIncludes msg (str "403") = true ∨ jsIncludes msg (str "PERMISSION_DENIED") = true) →
      handleGeminiError msg mt =
        (if mt = some ModelType.pro then GeminiThrow.billingDenied else GeminiThrow.accessDenied)) ∧
    (jsIncludes msg (str "403") = false → jsIncludes msg (str "PERMISSION_DENIED") = false →
      jsIncludes msg (str "429") = true → handleGeminiError msg mt = .quotaExceeded) ∧
    (jsIncludes msg (str "403") = false → jsIncludes msg (str "PERMISSION_DENIED") = false →
      jsIncludes msg (str "429") = false →
      handleGeminiError msg mt = .original msg ∧
      throwMessage (handleGeminiError msg mt) = msg) := by
  refine ⟨?_, ?_, ?_⟩
  · rintro (h | h) <;> simp [handleGeminiError, h]
  · intro h1 h2 h3
    simp [handleGeminiError, h1, h2, h3]
  · intro h1 h2 h3
    simp [handleGeminiError, h1, h2, h3, throwMessage]

/-- Witness for C7 at concrete raw errors of all three kinds. -/
theorem c7_witness :
    handleGeminiError (str "HTTP 429 slow down") none = .quotaExceeded ∧
    handleGeminiError (str "socket hang up") none = .original (str "socket hang up") ∧
    handleGeminiError (str "PERMISSION_DENIED by policy") (some ModelType.standard) = .accessDenied := by
  refine ⟨(c7_classifier_policy _ _).2.1 (by decide) (by decide) (by decide),
    ((c7_classifier_policy _ _).2.2 (by decide) (by decide) (by decide)).1, ?_⟩
  have h := (c7_classifier_policy (str "PERMISSION_DENIED by policy")
    (some ModelType.standard)).1 (Or.inr (by decide))
  rw [if_neg (by decide)] at h
  exact h

/-- Claim C10: when a raw error message carries both a 403/permission-denied
indicator and the substring 429, classification produces the
permission-denied outcome (billing-flavoured on the pro tier) and never the
rate-limit outcome, because the 403 check is evaluated first. -/
theorem c10_403_before_429 (msg : Str) (mt : Option ModelType)
    (h403 : jsIncludes msg (str "403") = true ∨ jsIncludes msg (str "PERMISSION_DENIED") = true)
    (h429 : jsIncludes msg (str "429") = true) :
    handleGeminiError msg mt ≠ GeminiThrow.quotaExceeded ∧
    handleGeminiError msg mt =
      (if mt = some ModelType.pro then GeminiThrow.billingDenied else GeminiThrow.accessDenied) := by
  have heq : handleGeminiError msg mt =
      (if mt = some ModelType.pro then GeminiThrow.billingDenied else GeminiThrow.accessDenied) := by
    rcases h403 with h | h <;> simp [handleGeminiError, h]
  refine ⟨?_, heq⟩
  rw [heq]
  by_cases hpro : mt = some ModelType.pro <;> simp [hpro]

/-- Witness for C10 at a message containing both 403 and 429. -/
theorem c10_witness :
    handleGeminiError (str "403 and 429 together") (some ModelType.pro) = .billingDenied ∧
    handleGeminiError (str "403 and 429 together") (some ModelType.pro) ≠ .quotaExceeded := by
  have h := c10_403_before_429 (str "403 and 429 together") (some ModelType.pro)
    (Or.inl (by decide)) (by decide)
  exact ⟨by rw [h.2]; decide, h.1⟩

/-- Claim C4: camera-threshold boundary values. Rotation exactly −10 or 10
yields the front-facing phrase (profile phrases need strictly beyond ±10);
vertical exactly ±0.3 yields the eye-level phrase; zoom exactly 7 yields the
medium close-up phrase; zoom exactly 3 yields the full-body phrase; and at a
front-facing boundary the full camera description begins with the
front-facing phrase. -/
theorem c4_camera_boundaries (s : CameraSettings) :
    ((s.rotation = -10 ∨ s.rotation = 10) → rotationPhrase s = str "Front facing view, ") ∧
    ((s.vertical = -(3/10) ∨ s.vertical = 3/10) → verticalPhrase s = str "Eye-level shot, ") ∧
    (s.zoom = 7 → zoomPhrase s = str "Medium close-up (head and shoulders), ") ∧
    (s.zoom = 3 → zoomPhrase s = str "Full body shot, ") ∧
    ((s.rotation = -10 ∨ s.rotation = 10) →
      (str "Front facing view, ").isPrefixOf (cameraDescription s) = true) := by
  have hrot : (s.rotation = -10 ∨ s.rotation = 10) →
      rotationPhrase s = str "Front facing view, " := by
    rintro (h | h) <;> simp only [rotationPhrase, h] <;> norm_num
  refine ⟨hrot, ?_, ?_, ?_, ?_⟩
  · rintro (h | h) <;> simp only [verticalPhrase, h] <;> norm_num
  · intro h
    simp only [zoomPhrase, h]
    norm_num
  · intro h
    simp only [zoomPhrase, h]
    norm_num
  · intro h
    rw [cameraDescription, hrot h]
    simp only [List.append_assoc]
    exact isPrefixOf_append_self _ _

/-- Witness for C4 at the four boundary values (two concrete settings). -/
theorem c4_witness :
    rotationPhrase ⟨-10, 3/10, 7, false⟩ = str "Front facing view, " ∧
    verticalPhrase ⟨-10, 3/10, 7, false⟩ = str "Eye-level shot, " ∧
    zoomPhrase ⟨-10, 3/10, 7, false⟩ = str "Medium close-up (head and shoulders), " ∧
    zoomPhrase ⟨10, -(3/10), 3, true⟩ = str "Full body shot, " ∧
    (str "Front facing view, ").isPrefixOf (cameraDescription ⟨10, -(3/10), 3, true⟩) = true :=
  ⟨(c4_camera_boundaries _).1 (Or.inl rfl),
   (c4_camera_boundaries _).2.1 (Or.inr rfl),
   (c4_camera_boundaries _).2.2.1 rfl,
   (c4_camera_boundaries _).2.2.2.1 rfl,
   (c4_camera_boundaries _).2.2.2.2 (Or.inr rfl)⟩

theorem firstInlineData_append (pre rest : List RespPart)
    (h : ∀ q ∈ pre, partHasImage q = false) :
    firstInlineData (pre ++ rest) = firstInlineData rest := by
  induction pre with
  | nil => rfl
  | cons a t ih =>
    have ha : partHasImage a = false := h a (List.mem_cons_self a t)
    have ht : ∀ q ∈ t, partHasImage q = false := fun q hq => h q (List.mem_cons_of_mem a hq)
    cases had : a.inlineData with
    | none => simp [firstInlineData, had, ih ht]
    | some d =>
      have hde : d.isEmpty = true := by
        simp [partHasImage, had] at ha
        simpa using ha
      simp [firstInlineData, had, hde, ih ht]

theorem firstInlineData_eq_none (parts : List RespPart)
    (h : ∀ p ∈ parts, partHasImage p = false) : firstInlineData parts = none := by
  have h2 := firstInlineData_append parts [] h
  simpa using h2

theorem generateSingleImage_ok_ne_nil (o : ServiceOutcome) (u : Str)
    (h : generateSingleImage o = .ok u) : u ≠ [] := by
  cases o with
  | err m => simp [generateSingleImage] at h
  | ok r =>
    cases hc : r.candidates with
    | none => simp [generateSingleImage, processResponse, hc] at h
    | some l =>
      cases l with
      | nil => simp [generateSingleImage, processResponse, hc] at h
      | cons c cs =>
        cases hf : firstInlineData c.parts with
        | none => simp [generateSingleImage, processResponse, hc, hf] at h
        | some d =>
          simp only [generateSingleImage, processResponse, hc, hf] at h
          injection h with h
          intro hnil
          rw [← h, List.append_eq_nil] at hnil
          exact absurd hnil.1 (by decide)

theorem find_fatal_none (l : List (Str × ServiceOutcome))
    (h : ∀ q ∈ l, unitIsFatal (runUnit q.1 q.2) = false) :
    ((l.map fun q => runUnit q.1 q.2).find? unitIsFatal) = none := by
  apply List.find?_eq_none.mpr
  intro r hr
  rw [List.mem_map] at hr
  obtain ⟨q, hq, rfl⟩ := hr
  simp [h q hq]

theorem results_filter_map (l : List (Str × ServiceOutcome)) :
    (((l.map fun q => runUnit q.1 q.2).filter fun r => r.success && !r.url.isEmpty).map
        fun r => (r.url, r.prompt)) =
      ((l.filter fun q => genOk q.2).map fun q => (genUrl q.2, q.1)) := by
  induction l with
  | nil => rfl
  | cons q t ih =>
    cases hq : generateSingleImage q.2 with
    | ok u =>
      have hu : u ≠ [] := generateSingleImage_ok_ne_nil q.2 u hq
      have h2 : genOk q.2 = true := by simp [genOk, hq]
      have h3 : runUnit q.1 q.2 = ⟨u, q.1, true, none⟩ := by simp [runUnit, hq]
      have h4 : genUrl q.2 = u := by simp [genUrl, hq]
      have h5 : u.isEmpty = false := by
        cases u with
        | nil => exact absurd rfl hu
        | cons c cs => rfl
      simp [List.filter_cons, h2, h3, h4, h5, ih]
    | error m =>
      have h2 : genOk q.2 = false := by simp [genOk, hq]
      have h3 : runUnit q.1 q.2 = ⟨[], q.1, false, some m⟩ := by simp [runUnit, hq]
      simp [List.filter_cons, h2, h3, ih]

/-- Claim C3: for a batch in which no unit fails fatally, the call resolves
without throwing to exactly the successful subset of units, as
`(url, prompt)` pairs in dispatch order; and when every unit succeeds, the
returned list pairs each element with its originating prompt, in the same
length and order as the input prompts. -/
theorem c3_batch_success_subset (prompts : List Str) (outcomes : List ServiceOutcome)
    (mt : ModelType) (hlen : prompts.length = outcomes.length)
    (hnf : ∀ q ∈ prompts.zip outcomes, unitIsFatal (runUnit q.1 q.2) = false) :
    generateStoryBatch prompts outcomes mt =
      .ok (((prompts.zip outcomes).filter fun q => genOk q.2).map fun q => (genUrl q.2, q.1)) ∧
    ((∀ o ∈ outcomes, genOk o = true) →
      ((((prompts.zip outcomes).filter fun q => genOk q.2).map fun q => (genUrl q.2, q.1)).map
          Prod.snd) = prompts) := by
  have hfind := find_fatal_none (prompts.zip outcomes) hnf
  constructor
  · simp only [generateStoryBatch, hfind]
    rw [results_filter_map]
  · intro hok
    have hall : ((prompts.zip outcomes).filter fun q => genOk q.2) = prompts.zip outcomes := by
      apply List.filter_eq_self.mpr
      intro q hq
      obtain ⟨a, b⟩ := q
      exact hok b (List.of_mem_zip hq).2
    rw [hall, List.map_map]
    have hcomp : (Prod.snd ∘ fun q : Str × ServiceOutcome => (genUrl q.2, q.1)) = Prod.fst := by
      funext q
      rfl
    rw [hcomp]
    exact List.map_fst_zip _ _ (le_of_eq hlen)

/-- Witness for C3: a mixed batch (one non-fatal failure) returns the
successful subset in order; an all-success batch returns every prompt paired
with its artifact, in order. -/
theorem c3_witness :
    generateStoryBatch [str "a", str "b", str "c"]
      [ServiceOutcome.ok (imgResp (str "I1")), ServiceOutcome.err (str "Model refused: nope"),
        ServiceOutcome.ok (imgResp (str "I3"))] ModelType.standard =
      .ok [(hdrPng ++ str "I1", str "a"), (hdrPng ++ str "I3", str "c")] ∧
    generateStoryBatch [str "a", str "b"]
      [ServiceOutcome.ok (imgResp (str "I1")), ServiceOutcome.ok (imgResp (str "I2"))]
      ModelType.pro =
      .ok [(hdrPng ++ str "I1", str "a"), (hdrPng ++ str "I2", str "b")] := by
  constructor
  · exact ((c3_batch_success_subset _ _ _ (by decide) (by decide)).1).trans
      (congrArg Except.ok (by decide))
  · exact ((c3_batch_success_subset _ _ _ (by decide) (by decide)).1).trans
      (congrArg Except.ok (by decide))

/-- Claim C1: if any unit of a batch fails with a message containing 403 or
PERMISSION_DENIED, the first such failure in dispatch order is the one
handed to the classifier, and the whole call throws the classified error:
billing-required for the pro tier, generic access-denied otherwise —
regardless of how the other units fared. -/
theorem c1_fatal_batch_classified (prompts : List Str) (outcomes : List ServiceOutcome)
    (mt : ModelType) (pre post : List (Str × ServiceOutcome)) (p m : Str) (o : ServiceOutcome)
    (hsplit : prompts.zip outcomes = pre ++ (p, o) :: post)
    (herr : generateSingleImage o = .error m)
    (hfatal : isFatalMsg m = true)
    (hpre : ∀ q ∈ pre, unitIsFatal (runUnit q.1 q.2) = false) :
    (((prompts.zip outcomes).map fun q => runUnit q.1 q.2).find? unitIsFatal =
      some (runUnit p o)) ∧
    generateStoryBatch prompts outcomes mt =
      .error (if mt = ModelType.pro then GeminiThrow.billingDenied else GeminiThrow.accessDenied) := by
  have hrun : runUnit p o = ⟨[], p, false, some m⟩ := by simp [runUnit, herr]
  have hfr : unitIsFatal (runUnit p o) = true := by simp [hrun, unitIsFatal, hfatal]
  have hfind : (((prompts.zip outcomes).map fun q => runUnit q.1 q.2).find? unitIsFatal =
      some (runUnit p o)) := by
    rw [hsplit, List.map_append, List.find?_append, find_fatal_none pre hpre, Option.none_or,
      List.map_cons, List.find?_cons_of_pos _ hfr]
  refine ⟨hfind, ?_⟩
  have hclass : handleGeminiError m (some mt) =
      (if mt = ModelType.pro then GeminiThrow.billingDenied else GeminiThrow.accessDenied) := by
    have h1 : (jsIncludes m (str "403") || jsIncludes m (str "PERMISSION_DENIED")) = true := hfatal
    simp only [handleGeminiError, h1, if_true]
    by_cases hp : mt = ModelType.pro
    · simp [hp]
    · have hp2 : ¬(some mt = some ModelType.pro) := by simpa using hp
      simp [hp, hp2]
  simp only [generateStoryBatch, hfind, hrun]
  simp [hclass]

/-- Witness for C1: a two-unit batch whose first unit succeeds and whose
second fails with a 403 message throws the billing-required error on the pro
tier. -/
theorem c1_witness :
    generateStoryBatch [str "a", str "b"]
      [ServiceOutcome.ok (imgResp (str "I1")), ServiceOutcome.err (str "403 forbidden")]
      ModelType.pro = .error GeminiThrow.billingDenied := by
  have h := c1_fatal_batch_classified [str "a", str "b"]
    [ServiceOutcome.ok (imgResp (str "I1")), ServiceOutcome.err (str "403 forbidden")]
    ModelType.pro [(str "a", ServiceOutcome.ok (imgResp (str "I1")))] []
    (str "b") (str "403 forbidden") (ServiceOutcome.err (str "403 forbidden"))
    (by decide) rfl (by decide) (by decide)
  exact h.2.trans (congrArg Except.error (by decide))

/-- Claim C5: the single-unit generator scans only the first candidate:
its result does not depend on later candidates; within the first candidate
it returns the first part carrying non-empty binary data, wrapped as a
data-URI with the fixed PNG media type; and a concrete response whose image
part sits only in the second candidate fails with the no-image error. -/
theorem c5_first_candidate_policy :
    (∀ (c : Candidate) (rest rest2 : List Candidate),
      processResponse ⟨some (c :: rest)⟩ = processResponse ⟨some (c :: rest2)⟩) ∧
    (∀ (c : Candidate) (rest : List Candidate) (pre post : List RespPart) (p : RespPart)
        (d : Str), c.parts = pre ++ p :: post → (∀ q ∈ pre, partHasImage q = false) →
      p.inlineData = some d → d ≠ [] →
      processResponse ⟨some (c :: rest)⟩ = .ok (hdrPng ++ d)) ∧
    processResponse twoCandidateResp = .error noImageMsg := by
  refine ⟨fun c rest rest2 => rfl, ?_, rfl⟩
  intro c rest pre post p d hp hpre hpd hdne
  have hde : d.isEmpty = false := by
    cases d with
    | nil => exact absurd rfl hdne
    | cons x xs => rfl
  have hfi : firstInlineData c.parts = some d := by
    rw [hp, firstInlineData_append pre _ hpre]
    simp [firstInlineData, hpd, hde]
  simp [processResponse, hfi]

/-- Witness for C5: in a three-part first candidate, the first non-empty
inline-data part wins, wrapped in the PNG data-URI header. -/
theorem c5_witness :
    processResponse ⟨some [⟨[textPart (str "t"), imgPart (str "D1"), imgPart (str "D2")]⟩]⟩ =
      .ok (hdrPng ++ str "D1") :=
  c5_first_candidate_policy.2.1 ⟨[textPart (str "t"), imgPart (str "D1"), imgPart (str "D2")]⟩
    [] [textPart (str "t")] [imgPart (str "D2")] (imgPart (str "D1")) (str "D1")
    rfl (by decide) rfl (by decide)

/-- Counterexample to C2 as stated: a response whose first candidate has a
text part but no image part makes `generateSingleImage` fail with the plain
no-image message, not with a model-refusal error carrying the text (that
classification exists only in `generateReferenceImage`, shown by the last
conjunct). -/
theorem c2_counterexample :
    generateSingleImage (ServiceOutcome.ok refusalResp) = .error noImageMsg ∧
    noImageMsg ≠ modelRefusedMsg (str "I cannot do that") ∧
    jsIncludes noImageMsg (str "I cannot do that") = false ∧
    processReferenceResponse refusalResp = .error (modelRefusedMsg (str "I cannot do that")) :=
  ⟨rfl, by decide, by decide, rfl⟩

/-- Claim C2 (amended): whenever the first candidate (if any) of the
response has no part with usable image data — in particular when its only
parts are text parts, and also when there are no candidates or no parts at
all — `generateSingleImage` fails with the no-image-produced error. -/
theorem c2_single_image_failure (r : GenResponse)
    (h : (((r.candidates.getD []).take 1).all fun c => c.parts.all fun p => !partHasImage p) =
      true) :
    generateSingleImage (.ok r) = .error noImageMsg := by
  cases hc : r.candidates with
  | none => simp [generateSingleImage, processResponse, hc]
  | some l =>
    cases l with
    | nil => simp [generateSingleImage, processResponse, hc]
    | cons c cs =>
      rw [hc] at h
      simp only [Option.getD_some, List.take_succ_cons, List.take_zero, List.all_cons,
        List.all_nil, Bool.and_true] at h
      have hnone : firstInlineData c.parts = none := by
        apply firstInlineData_eq_none
        intro p hp
        have h2 := (List.all_eq_true.mp h) p hp
        simpa using h2
      simp [generateSingleImage, processResponse, hc, hnone]

/-- Witness for the amended C2 at the concrete text-only response. -/
theorem c2_witness : generateSingleImage (ServiceOutcome.ok refusalResp) = .error noImageMsg :=
  c2_single_image_failure refusalResp (by decide)
